import Mathlib

/-
Verification of the SatyaSetu request-processing core against its design
specification.

The repository ships the frontend sources (the API client in
frontend/lib/api.ts and the telemetry WebSocket hook) together with the
design documents for the backend core (rate limiter, request pipeline,
telemetry bus, stream adapter).  The backend implementation itself is not
part of the available sources, so those components are modelled here
directly from the specification text, while the frontend functions are
embedded from their TypeScript sources.
-/

set_option autoImplicit false
set_option maxRecDepth 8192

namespace SatyaSetu

/-! ## RateLimiter (modelled from the spec) -/

/-- Modelled from the spec: `RateLimiter` sliding-window admission
(backend source absent from the repository snapshot).  Per spec section 4.2:
on each call, purge timestamps older than `now - windowSize`; if the
remaining count is at least `limit`, reject without recording; otherwise
append `now` and accept.  A timestamp exactly at the window edge
(`t = now - windowSize`) is kept.  Returns the decision and the new bucket. -/
def admitRequest (windowSize limit now : Nat) (bucket : List Nat) : Bool × List Nat :=
  let purged := bucket.filter (fun t => decide (now ≤ t + windowSize))
  if limit ≤ purged.length then
    (false, purged)
  else
    (true, purged ++ [now])

/-- Run a sequence of admission calls (one per timestamp in `nows`) against a
starting bucket; returns the list of decisions and the final bucket. -/
def admitFold (windowSize limit : Nat) (nows : List Nat) (bucket : List Nat) :
    List Bool × List Nat :=
  match nows with
  | [] => ([], bucket)
  | n :: rest =>
    let step := admitRequest windowSize limit n bucket
    let tail := admitFold windowSize limit rest step.2
    (step.1 :: tail.1, tail.2)

/-- The timestamps of the calls a sequence of admission checks admits
(the calls recorded by the limiter), in arrival order. -/
def admittedList (windowSize limit : Nat) (nows : List Nat) (bucket : List Nat) :
    List Nat :=
  match nows with
  | [] => []
  | n :: rest =>
    let step := admitRequest windowSize limit n bucket
    (if step.1 then [n] else []) ++ admittedList windowSize limit rest step.2

/-! ## RequestPipeline (modelled from the spec) -/

/-- Modelled from the spec: query intents (spec section 3). -/
inductive Intent where
  | scam_verify
  | scheme_lookup
  | general_question
  | offline_fallback
deriving DecidableEq, Repr

/-- Modelled from the spec: the safety-check verdict (spec section 3). -/
structure SafetyVerdict where
  allowed : Bool
  reasons : List String
deriving DecidableEq, Repr

/-- Modelled from the spec: the tagged outcome of one pipeline stage
(success payload, failure with a message, or timeout). -/
inductive StageOutcome (α : Type) where
  | ok (value : α)
  | failure (msg : String)
  | timeout
deriving DecidableEq, Repr

/-- Whether a stage outcome is a success. -/
def StageOutcome.isOk {α : Type} : StageOutcome α → Bool
  | .ok _ => true
  | .failure _ => false
  | .timeout => false

/-- Modelled from the spec: one retrieved document
(source identifier, excerpt, relevance score). -/
structure RetrievedDoc where
  sourceId : String
  excerpt : String
  score : Nat
deriving DecidableEq, Repr

/-- Modelled from the spec: an ordered sequence of retrieved documents;
the empty sequence is valid. -/
structure RetrievedContext where
  docs : List RetrievedDoc
deriving DecidableEq, Repr

/-- Modelled from the spec: a generated answer (text, confidence, sources). -/
structure GeneratedAnswer where
  text : String
  confidence : Nat
  sources : List String
deriving DecidableEq, Repr

/-- Modelled from the spec: telemetry event types emitted by the pipeline
(spec section 6, plus the `error` terminal event of section 4.1). -/
inductive EventType where
  | safety_check_start
  | safety_block
  | intent_classified
  | retrieval_start
  | generation_start
  | response_complete
  | error
deriving DecidableEq, Repr

/-- Terminal event types for a single request: `response_complete`
(the success terminal, spec section 4.1) or `error`. -/
def EventType.isTerminal : EventType → Bool
  | .response_complete => true
  | .error => true
  | _ => false

/-- Whether an event type is `retrieval_start`. -/
def EventType.isRetrievalStart : EventType → Bool
  | .retrieval_start => true
  | _ => false

/-- Modelled from the spec: the event-specific payload mapping of a
`PipelineEvent` (spec sections 3 and 6). -/
inductive EventPayload where
  | safetyStart (userId queryPreview : String)
  | safetyBlock (userId : String) (reasons : List String)
  | intentDone (userId : String) (intent : Intent)
  | retrStart (intent : Intent) (query : String)
  | genStart (intent : Intent) (docsCount : Nat)
  | respDone (userId : String) (confidence : Nat) (responseLength : Nat) (sources : List String)
  | errInfo (stage : String) (kind : String)
deriving DecidableEq, Repr

/-- Modelled from the spec: an immutable pipeline event
`\x7btype, payload, timestamp\x7d` (spec section 3). -/
structure PipelineEvent where
  type : EventType
  payload : EventPayload
  timestamp : Nat
deriving DecidableEq, Repr

/-- Modelled from the spec: the pipeline state machine states
(spec section 4.1). -/
inductive PipelineState where
  | Idle
  | SafetyCheck
  | IntentRouting
  | Retrieval
  | Generation
  | PostProcess
  | Complete
  | Blocked
  | Failed
deriving DecidableEq, Repr

/-- Modelled from the spec: a call made to the external service gateway
(spec section 4.5); only retrieval and generation are reachable from the
text pipeline. -/
inductive GatewayCall where
  | retrieve (query : String) (intent : Intent)
  | generate (query : String) (intent : Intent) (ctx : RetrievedContext)
deriving DecidableEq, Repr

/-- Whether a gateway call is a retrieval call. -/
def GatewayCall.isRetrieve : GatewayCall → Bool
  | .retrieve _ _ => true
  | .generate _ _ _ => false

/-- Modelled from the spec: the final result the pipeline returns to its
caller; always a well-formed value, never a raised error. -/
structure PipelineResult where
  text : String
  success : Bool
deriving DecidableEq, Repr

/-- Modelled from the spec: the generic, language-appropriate fallback
response returned after an internal stage failure (spec section 4.1);
it carries no internal error detail. -/
def fallbackResponse (language : String) : PipelineResult :=
  ⟨("fallback:") ++ language, false⟩

/-- Modelled from the spec: the canned localized rejection returned for a
blocked query (spec section 4.1). -/
def cannedRejection (language : String) : PipelineResult :=
  ⟨("blocked:") ++ language, false⟩

/-- Modelled from the spec: intents that require grounding invoke retrieval;
`general_question` and `offline_fallback` skip it (spec section 4.1). -/
def needsGrounding : Intent → Bool
  | .scam_verify => true
  | .scheme_lookup => true
  | .general_question => false
  | .offline_fallback => false

/-- Everything one pipeline run produces: the ordered event sequence, the
final state, the result returned to the caller, and the gateway calls made. -/
structure RunOutput where
  events : List PipelineEvent
  state : PipelineState
  result : PipelineResult
  calls : List GatewayCall
deriving DecidableEq, Repr

/-- Generation followed by post-processing, shared by the grounded and the
ungrounded paths.  Emits `generation_start`, invokes the generation gateway,
and on success post-processes and emits the `response_complete` terminal
event; on failure or timeout emits the `error` terminal event, moves to
`Failed` and returns the fallback response. -/
def generationPhase (userId query language : String) (intent : Intent)
    (ctx : RetrievedContext) (generationO : StageOutcome GeneratedAnswer)
    (evs : List PipelineEvent) (calls : List GatewayCall) (ts : Nat) : RunOutput :=
  let eg : PipelineEvent := ⟨.generation_start, .genStart intent ctx.docs.length, ts⟩
  let calls2 := calls ++ [.generate query intent ctx]
  match generationO with
  | .failure _ =>
    ⟨evs ++ [eg, ⟨.error, .errInfo ("generation") ("failure"), ts + 1⟩],
     .Failed, fallbackResponse language, calls2⟩
  | .timeout =>
    ⟨evs ++ [eg, ⟨.error, .errInfo ("generation") ("timeout"), ts + 1⟩],
     .Failed, fallbackResponse language, calls2⟩
  | .ok ans =>
    ⟨evs ++ [eg, ⟨.response_complete,
        .respDone userId ans.confidence ans.text.length ans.sources, ts + 1⟩],
     .Complete, ⟨ans.text, true⟩, calls2⟩

/-- Modelled from the spec: `RequestPipeline.run` (spec section 4.1; backend
source absent from the repository snapshot).  The outcome of each stage is
supplied by an oracle argument (the stages call external gateways).  Stages
run strictly in order: safety check, intent routing, retrieval (only for
grounding intents, otherwise an empty context is substituted without a
gateway call), generation, post-processing.  A blocked verdict terminates
the run immediately after `safety_block`; any stage failure or timeout
moves to `Failed`, emits the `error` event and yields the fallback
response. -/
def runPipeline (userId query language : String)
    (safetyO : StageOutcome SafetyVerdict) (intentO : StageOutcome Intent)
    (retrievalO : StageOutcome RetrievedContext)
    (generationO : StageOutcome GeneratedAnswer) : RunOutput :=
  let e0 : PipelineEvent := ⟨.safety_check_start, .safetyStart userId query, 0⟩
  match safetyO with
  | .failure _ =>
    ⟨[e0, ⟨.error, .errInfo ("safety_check") ("failure"), 1⟩],
     .Failed, fallbackResponse language, []⟩
  | .timeout =>
    ⟨[e0, ⟨.error, .errInfo ("safety_check") ("timeout"), 1⟩],
     .Failed, fallbackResponse language, []⟩
  | .ok verdict =>
    if verdict.allowed then
      match intentO with
      | .failure _ =>
        ⟨[e0, ⟨.error, .errInfo ("intent_routing") ("failure"), 1⟩],
         .Failed, fallbackResponse language, []⟩
      | .timeout =>
        ⟨[e0, ⟨.error, .errInfo ("intent_routing") ("timeout"), 1⟩],
         .Failed, fallbackResponse language, []⟩
      | .ok intent =>
        let e1 : PipelineEvent := ⟨.intent_classified, .intentDone userId intent, 1⟩
        if needsGrounding intent then
          let e2 : PipelineEvent := ⟨.retrieval_start, .retrStart intent query, 2⟩
          match retrievalO with
          | .failure _ =>
            ⟨[e0, e1, e2, ⟨.error, .errInfo ("retrieval") ("failure"), 3⟩],
             .Failed, fallbackResponse language, [.retrieve query intent]⟩
          | .timeout =>
            ⟨[e0, e1, e2, ⟨.error, .errInfo ("retrieval") ("timeout"), 3⟩],
             .Failed, fallbackResponse language, [.retrieve query intent]⟩
          | .ok ctx =>
            generationPhase userId query language intent ctx generationO
              [e0, e1, e2] [.retrieve query intent] 3
        else
          generationPhase userId query language intent ⟨[]⟩ generationO
            [e0, e1] [] 2
    else
      ⟨[e0, ⟨.safety_block, .safetyBlock userId verdict.reasons, 1⟩],
       .Blocked, cannedRejection language, []⟩

/-- The failure-recovery shape required after an internal stage failure:
terminal state `Failed`, an `error` event as the last emitted event, and
the generic language-appropriate fallback response (which carries no
internal error detail) returned to the caller. -/
def FailedRecovery (language : String) (out : RunOutput) : Prop :=
  out.state = .Failed
  ∧ out.events.getLast?.map PipelineEvent.type = some .error
  ∧ out.result = fallbackResponse language

/-! ## StreamAdapter (modelled from the spec) -/

/-- Modelled from the spec: the stream adapter forwards a run's events in
order and closes the transport immediately after forwarding a terminal
event (spec section 4.4). -/
def takeThroughTerminal : List PipelineEvent → List PipelineEvent
  | [] => []
  | e :: rest => if e.type.isTerminal then [e] else e :: takeThroughTerminal rest

/-- Printable name of an event type, used in the framed stream line. -/
def eventTypeName : EventType → String
  | .safety_check_start => "safety_check_start"
  | .safety_block => "safety_block"
  | .intent_classified => "intent_classified"
  | .retrieval_start => "retrieval_start"
  | .generation_start => "generation_start"
  | .response_complete => "response_complete"
  | .error => "error"

/-- Modelled from the spec: the serialized body of one pushed event; the
event record carries exactly the type/payload/timestamp fields. -/
def eventBody (e : PipelineEvent) : String :=
  (eventTypeName e.type) ++ ("@") ++ (toString e.timestamp)

/-- Modelled from the spec: server-sent-event framing, one
`data: <json>` line per forwarded event (spec section 6). -/
def sseLine (e : PipelineEvent) : String :=
  ("data: ") ++ eventBody e

/-- Modelled from the spec: the request-scoped push stream for one run:
the run's events, cut at the terminal event, framed one per line. -/
def attachStream (events : List PipelineEvent) : List String :=
  (takeThroughTerminal events).map sseLine

/-! ## Telemetry hook (from frontend useTelemetry, src/unnamed/part_003) -/

/-- Embedded from the source: a telemetry event as parsed by the frontend
hook, shape `\x7btype, payload, timestamp\x7d`. -/
structure TelemetryEvent where
  type : String
  payload : String
  timestamp : String
deriving DecidableEq, Repr

/-- Last `n` elements of a list (the JavaScript `slice(-n)`). -/
def takeLast {α : Type} (n : Nat) (l : List α) : List α :=
  l.drop (l.length - n)

/-- Embedded from the source: the `ws.onmessage` handler of `useTelemetry`
(src/unnamed/part_003, lines 73-88).  `none` stands for a message whose
`JSON.parse` failed (the handler catches and ignores it); a parsed message
of type `heartbeat` is ignored; any other message is appended and the
buffer is truncated with `slice(-100)`. -/
def handleMessage (events : List TelemetryEvent) (msg : Option TelemetryEvent) :
    List TelemetryEvent :=
  match msg with
  | none => events
  | some data =>
    if data.type == ("heartbeat") then events
    else takeLast 100 (events ++ [data])

/-- Process a whole arrival sequence of incoming messages, starting from the
hook's initial empty event list. -/
def processMessages (msgs : List (Option TelemetryEvent)) : List TelemetryEvent :=
  msgs.foldl handleMessage []

/-- The application events in an arrival sequence: the messages that parsed,
minus the heartbeats. -/
def appEvents (msgs : List (Option TelemetryEvent)) : List TelemetryEvent :=
  (msgs.filterMap id).filter (fun d => !(d.type == ("heartbeat")))

/-! ## Telemetry hook reconnection (from frontend useTelemetry) -/

/-- Embedded from the source: the connection-management state of the
`useTelemetry` hook: the reconnect-attempt counter, the `connected` and
`error` React states, and the pending reconnect timer (carrying its delay
in milliseconds) if one is scheduled. -/
structure ConnState where
  attempts : Nat
  connected : Bool
  errorMsg : Option String
  scheduled : Option Nat
deriving DecidableEq, Repr

/-- An observable WebSocket lifecycle event for one connection attempt. -/
inductive WsEvent where
  | opened
  | closed
deriving DecidableEq, Repr

/-- Embedded from the source: the `ws.onopen` / `ws.onclose` handlers of
`useTelemetry` (src/unnamed/part_003, lines 43-66).  On open: connected,
error cleared, attempt counter reset to 0, no timer pending.  On close
with fewer than `maxAttempts` attempts used: the counter is incremented
and a reconnect is scheduled `interval` milliseconds later.  On close at
the maximum: the error state is set and nothing further is scheduled. -/
def wsStep (maxAttempts interval : Nat) (s : ConnState) : WsEvent → ConnState
  | .opened => ⟨0, true, none, none⟩
  | .closed =>
    if s.attempts < maxAttempts then
      ⟨s.attempts + 1, false, s.errorMsg, some interval⟩
    else
      ⟨s.attempts, false, some ("Max reconnection attempts reached"), none⟩

/-- The hook's initial connection state. -/
def initialConn : ConnState := ⟨0, false, none, none⟩

/-- Fold a sequence of WebSocket lifecycle events through the hook's
handlers. -/
def runConn (maxAttempts interval : Nat) (evs : List WsEvent) : ConnState :=
  evs.foldl (wsStep maxAttempts interval) initialConn

/-! ## ApiClient.fetchWithRetry (from frontend/lib/api.ts) -/

/-- Outcome of one `fetch` call: the promise resolved with a response of
the given HTTP status, or it rejected with a network error. -/
inductive FetchOutcome where
  | http (status : Nat)
  | network (msg : String)
deriving DecidableEq, Repr

/-- The WHATWG `Response.ok` flag: status in [200, 300). -/
def statusOk (status : Nat) : Bool :=
  decide (200 ≤ status) && decide (status < 300)

/-- Embedded from the source: the retry loop of `ApiClient.fetchWithRetry`
(frontend/lib/api.ts, lines 55-97).  `oracle i` is the outcome of the
fetch issued on loop iteration `i`; `fuel` is the number of loop
iterations remaining; the result pairs the returned status or thrown
error message with the total number of fetch requests issued.  Note that
the `Client error` throw for a 4xx status happens inside the `try` block,
so it is caught by the loop's own `catch` and, except on the last
iteration, leads to another attempt. -/
def fetchLoop (oracle : Nat → FetchOutcome) (retries : Nat) :
    Nat → Nat → Except String Nat × Nat
  | 0, i => (Except.error ("Max retries exceeded"), i)
  | fuel + 1, i =>
    match oracle i with
    | .http s =>
      if statusOk s then
        (Except.ok s, i + 1)
      else if decide (400 ≤ s) && decide (s < 500) then
        if i = retries - 1 then (Except.error (("Client error: ") ++ toString s), i + 1)
        else fetchLoop oracle retries fuel (i + 1)
      else
        if i = retries - 1 then (Except.error (("Server error: ") ++ toString s), i + 1)
        else fetchLoop oracle retries fuel (i + 1)
    | .network msg =>
      if i = retries - 1 then (Except.error msg, i + 1)
      else fetchLoop oracle retries fuel (i + 1)

/-- Embedded from the source: `ApiClient.fetchWithRetry` with its attempt
budget (default 3); returns the result together with the number of fetch
requests issued. -/
def fetchWithRetry (oracle : Nat → FetchOutcome) (retries : Nat) :
    Except String Nat × Nat :=
  fetchLoop oracle retries retries 0

/-! ## ApiClient.streamTextProcessing (from frontend/lib/api.ts) -/

/-- A stream event as delivered to the `onEvent` callback, shape
`\x7btype, node?, progress?, result?, error?, timestamp\x7d`. -/
structure StreamEvent where
  type : String
  node : Option String
  progress : Option Nat
  result : Option String
  errorText : Option String
  timestamp : String
deriving DecidableEq, Repr

/-- Outcome of the streaming fetch: a network rejection, or a response of
the given status whose body decodes to the given lines. -/
inductive StreamFetch where
  | network (msg : String)
  | http (status : Nat) (lines : List String)
deriving DecidableEq, Repr

/-- Embedded from the source: the per-line handling of
`ApiClient.streamTextProcessing` (frontend/lib/api.ts, lines 137-146): a
line not starting with `data: ` is ignored; otherwise the remainder is
JSON-parsed (`parse`, returning `none` on parse failure, which the code
logs and skips) and delivered. -/
def processStreamLine (parse : String → Option StreamEvent) (line : String) :
    Option StreamEvent :=
  -- the source's prefix test `line.startsWith('data: ')` is embedded as
  -- equality of the first six characters, which is its meaning
  if line.take 6 == ("data: ") then parse (line.drop 6) else none

/-- The single `error`-typed event the catch block delivers. -/
def streamErrorEvent (msg nowIso : String) : StreamEvent :=
  ⟨("error"), none, none, none, some msg, nowIso⟩

/-- Embedded from the source: `ApiClient.streamTextProcessing`
(frontend/lib/api.ts, lines 100-156), returning the list of events passed
to `onEvent` in order.  A network failure or a non-ok status reaches the
catch block, which delivers exactly one `error` event; otherwise every
`data: ` line that parses is delivered and every other line is skipped. -/
def streamTextProcessing (parse : String → Option StreamEvent)
    (outcome : StreamFetch) (nowIso : String) : List StreamEvent :=
  match outcome with
  | .network msg => [streamErrorEvent msg nowIso]
  | .http status lines =>
    if statusOk status then
      lines.filterMap (processStreamLine parse)
    else
      [streamErrorEvent (("Streaming failed: ") ++ toString status) nowIso]

/-! ## ApiClient.processText (from frontend/lib/api.ts) -/

/-- The response object `ApiClient.processText` resolves with (the fields
the catch block populates). -/
structure VoiceProcessResponse where
  success : Bool
  response : String
  processing_time : Nat
  errorText : Option String
deriving DecidableEq, Repr

/-- Embedded from the source: `ApiClient.processText`
(frontend/lib/api.ts, lines 202-223).  `fetchResult` is the outcome of
`fetchWithRetry` followed by `response.json()`: a parsed response object,
or the message of whatever was thrown.  The catch block converts any
thrown error into a resolved response with `success := false` and the
error string; the function never rejects. -/
def processText (fetchResult : Except String VoiceProcessResponse) :
    VoiceProcessResponse :=
  match fetchResult with
  | .ok r => r
  | .error msg => ⟨false, (""), 0, some msg⟩

/-! ## Helper lemmas -/

/-- One admission call keeps the bucket within the limit. -/
theorem admitRequest_length_le (windowSize limit now : Nat) (bucket : List Nat)
    (h : bucket.length ≤ limit) :
    ((admitRequest windowSize limit now bucket).2).length ≤ limit := by
  unfold admitRequest
  have hp : (bucket.filter (fun t => decide (now ≤ t + windowSize))).length ≤ bucket.length :=
    List.length_filter_le _ _
  by_cases hc : limit ≤ (bucket.filter (fun t => decide (now ≤ t + windowSize))).length
  · simp only [hc, if_pos]
    omega
  · simp only [hc, if_neg, not_false_iff]
    simp only [List.length_append, List.length_cons, List.length_nil]
    omega

/-- Any sequence of admission calls keeps the bucket within the limit. -/
theorem admitFold_length_le (windowSize limit : Nat) (nows : List Nat) :
    ∀ bucket : List Nat, bucket.length ≤ limit →
      ((admitFold windowSize limit nows bucket).2).length ≤ limit := by
  induction nows with
  | nil => intro bucket h; simpa [admitFold] using h
  | cons n rest ih =>
    intro bucket h
    simpa [admitFold] using
      ih _ (admitRequest_length_le windowSize limit n bucket h)

/-- Purging with an earlier window bound keeps every entry that a later
window bound would keep: the later filter absorbs the earlier one. -/
theorem filter_window_absorb (windowSize T n : Nat) (hn : n ≤ T)
    (bucket : List Nat) :
    (bucket.filter (fun t => decide (n ≤ t + windowSize))).filter
        (fun t => decide (T ≤ t + windowSize)) =
      bucket.filter (fun t => decide (T ≤ t + windowSize)) := by
  induction bucket with
  | nil => simp
  | cons a rest ih =>
    by_cases hT : T ≤ a + windowSize
    · have hna : n ≤ a + windowSize := le_trans hn hT
      simp [List.filter_cons, hT, hna, ih]
    · by_cases hna : n ≤ a + windowSize
      · simp [List.filter_cons, hT, hna, ih]
      · simp [List.filter_cons, hT, hna, ih]

/-- Every admitted call whose timestamp is still inside the window ending
at `T` is retained in the final bucket: the in-window part of the starting
bucket plus all admitted calls is never larger than the in-window part of
the final bucket. -/
theorem admittedList_window_le (windowSize limit : Nat) (nows : List Nat) :
    ∀ (bucket : List Nat) (T : Nat), (∀ n ∈ nows, n ≤ T) →
      ((bucket ++ admittedList windowSize limit nows bucket).filter
          (fun t => decide (T ≤ t + windowSize))).length ≤
        (((admitFold windowSize limit nows bucket).2).filter
          (fun t => decide (T ≤ t + windowSize))).length := by
  induction nows with
  | nil =>
    intro bucket T h
    simp [admittedList, admitFold]
  | cons n rest ih =>
    intro bucket T h
    have hn : n ≤ T := h n (List.mem_cons_self n rest)
    have hrest : ∀ m ∈ rest, m ≤ T := fun m hm => h m (List.mem_cons_of_mem n hm)
    have habsorb := filter_window_absorb windowSize T n hn bucket
    by_cases hc : limit ≤
        (bucket.filter (fun t => decide (n ≤ t + windowSize))).length
    · have hstep := ih (bucket.filter (fun t => decide (n ≤ t + windowSize))) T hrest
      simp only [admittedList, admitFold, admitRequest, hc, if_pos, if_neg,
        Bool.false_eq_true, not_false_iff, List.nil_append, List.filter_append,
        List.length_append] at *
      simp only [List.filter_append, List.length_append, habsorb] at hstep ⊢
      omega
    · have hstep := ih
        (bucket.filter (fun t => decide (n ≤ t + windowSize)) ++ [n]) T hrest
      simp only [admittedList, admitFold, admitRequest, hc, if_pos, if_neg,
        not_false_iff, List.filter_append, List.length_append] at *
      simp only [List.filter_append, List.length_append, List.append_assoc,
        List.cons_append, List.nil_append, habsorb] at hstep ⊢
      omega

/-! ## Claims -/

/-- C1: for every caller key and every trailing window of length
`windowSize` ending at any instant `T` at or after the calls considered,
the number of admitted calls recorded whose timestamps fall inside that
window never exceeds the configured limit; the recorded bucket itself
never holds more than `limit` timestamps; and in the concrete end-to-end
scenario of 61 requests from one key within 60 seconds under the defaults
(window 60s, limit 60), the first 60 are admitted and the 61st is
rejected. -/
theorem rateLimiter_sliding_window_bound :
    (∀ windowSize limit T : Nat, ∀ nows : List Nat, (∀ n ∈ nows, n ≤ T) →
      ((admittedList windowSize limit nows []).filter
          (fun t => decide (T ≤ t + windowSize))).length ≤ limit)
    ∧ (∀ windowSize limit : Nat, ∀ nows bucket : List Nat,
        bucket.length ≤ limit →
        ((admitFold windowSize limit nows bucket).2).length ≤ limit)
    ∧ (admitFold 60 60 (List.replicate 61 5) []).1 =
        List.replicate 60 true ++ [false] := by
  refine ⟨fun windowSize limit T nows h => ?_,
    fun windowSize limit nows bucket h =>
      admitFold_length_le windowSize limit nows bucket h,
    by decide⟩
  calc ((admittedList windowSize limit nows []).filter
          (fun t => decide (T ≤ t + windowSize))).length
      = (([] ++ admittedList windowSize limit nows []).filter
          (fun t => decide (T ≤ t + windowSize))).length := by simp
    _ ≤ (((admitFold windowSize limit nows []).2).filter
          (fun t => decide (T ≤ t + windowSize))).length :=
        admittedList_window_le windowSize limit nows [] T h
    _ ≤ ((admitFold windowSize limit nows []).2).length :=
        List.length_filter_le _ _
    _ ≤ limit := admitFold_length_le windowSize limit nows [] (by simp)

/-- Witness for C1 at a concrete input. -/
theorem rateLimiter_sliding_window_bound_witness :
    ((admittedList 60 60 [10, 20, 30, 70] []).filter
        (fun t => decide (100 ≤ t + 60))).length ≤ 60 :=
  rateLimiter_sliding_window_bound.1 60 60 100 [10, 20, 30, 70] (by decide)

/-- C2: a query whose safety verdict has `allowed = false` makes the
pipeline emit exactly `[safety_check_start, safety_block]`, transition
directly to `Blocked`, return the canned localized rejection, and make no
retrieval or generation gateway call. -/
theorem pipeline_blocked_early_termination
    (userId query language : String) (v : SafetyVerdict)
    (intentO : StageOutcome Intent) (retrievalO : StageOutcome RetrievedContext)
    (generationO : StageOutcome GeneratedAnswer)
    (h : v.allowed = false) :
    runPipeline userId query language (.ok v) intentO retrievalO generationO =
      ⟨[⟨.safety_check_start, .safetyStart userId query, 0⟩,
        ⟨.safety_block, .safetyBlock userId v.reasons, 1⟩],
       .Blocked, cannedRejection language, []⟩ := by
  simp [runPipeline, h]

/-- Witness for C2 at a concrete input. -/
theorem pipeline_blocked_early_termination_witness :
    runPipeline ("u1") ("free money") ("en")
        (.ok ⟨false, [("scam")]⟩) (.ok .general_question) (.ok ⟨[]⟩)
        (.ok ⟨("hi"), 1, []⟩) =
      ⟨[⟨.safety_check_start, .safetyStart ("u1") ("free money"), 0⟩,
        ⟨.safety_block, .safetyBlock ("u1") [("scam")], 1⟩],
       .Blocked, cannedRejection ("en"), []⟩ :=
  pipeline_blocked_early_termination ("u1") ("free money") ("en")
    ⟨false, [("scam")]⟩ (.ok .general_question) (.ok ⟨[]⟩)
    (.ok ⟨("hi"), 1, []⟩) rfl

/-- Every framed stream line carries the `data: ` prefix. -/
theorem sseLine_data_prefix (e : PipelineEvent) :
    ("data: ").data <+: (sseLine e).data :=
  ⟨(eventBody e).data, by simp [sseLine]⟩

/-- Every line of an attached stream carries the `data: ` prefix. -/
theorem attachStream_lines_prefix (events : List PipelineEvent) :
    ∀ line ∈ attachStream events, ("data: ").data <+: line.data := by
  intro line hl
  simp only [attachStream, List.mem_map] at hl
  obtain ⟨e, -, rfl⟩ := hl
  exact sseLine_data_prefix e

/-- A pipeline run emits at most one terminal event, emits no event after
a terminal one, and its event list is unchanged by cutting at the
terminal event. -/
theorem runPipeline_terminal_spec (userId query language : String)
    (safetyO : StageOutcome SafetyVerdict) (intentO : StageOutcome Intent)
    (retrievalO : StageOutcome RetrievedContext)
    (generationO : StageOutcome GeneratedAnswer) :
    ((runPipeline userId query language safetyO intentO retrievalO
        generationO).events.filter (fun e => e.type.isTerminal)).length ≤ 1
    ∧ ((runPipeline userId query language safetyO intentO retrievalO
        generationO).events.dropLast.all (fun e => !e.type.isTerminal)) = true
    ∧ takeThroughTerminal (runPipeline userId query language safetyO intentO
        retrievalO generationO).events =
        (runPipeline userId query language safetyO intentO retrievalO
          generationO).events := by
  cases safetyO with
  | failure m =>
    simp [runPipeline, EventType.isTerminal, takeThroughTerminal, List.dropLast]
  | timeout =>
    simp [runPipeline, EventType.isTerminal, takeThroughTerminal, List.dropLast]
  | ok v =>
    cases hv : v.allowed with
    | false =>
      simp [runPipeline, hv, EventType.isTerminal, takeThroughTerminal, List.dropLast]
    | true =>
      cases intentO with
      | failure m =>
        simp [runPipeline, hv, EventType.isTerminal, takeThroughTerminal, List.dropLast]
      | timeout =>
        simp [runPipeline, hv, EventType.isTerminal, takeThroughTerminal, List.dropLast]
      | ok intent =>
        cases hg : needsGrounding intent with
        | true =>
          cases retrievalO with
          | failure m =>
            simp [runPipeline, hv, hg, EventType.isTerminal, takeThroughTerminal,
              List.dropLast]
          | timeout =>
            simp [runPipeline, hv, hg, EventType.isTerminal, takeThroughTerminal,
              List.dropLast]
          | ok ctx =>
            cases generationO with
            | failure m =>
              simp [runPipeline, generationPhase, hv, hg, EventType.isTerminal,
                takeThroughTerminal, List.dropLast]
            | timeout =>
              simp [runPipeline, generationPhase, hv, hg, EventType.isTerminal,
                takeThroughTerminal, List.dropLast]
            | ok ans =>
              simp [runPipeline, generationPhase, hv, hg, EventType.isTerminal,
                takeThroughTerminal, List.dropLast]
        | false =>
          cases generationO with
          | failure m =>
            simp [runPipeline, generationPhase, hv, hg, EventType.isTerminal,
              takeThroughTerminal, List.dropLast]
          | timeout =>
            simp [runPipeline, generationPhase, hv, hg, EventType.isTerminal,
              takeThroughTerminal, List.dropLast]
          | ok ans =>
            simp [runPipeline, generationPhase, hv, hg, EventType.isTerminal,
              takeThroughTerminal, List.dropLast]

/-- C3: the event sequence of a single request is totally ordered (a list),
contains at most one terminal event (`response_complete` or `error`),
contains no event after a terminal one (all non-last events are
non-terminal), and the request-scoped push stream — the events cut at the
terminal event, one per line — forwards the whole sequence, each line
framed with the `data: ` prefix and the serialized event behind it. -/
theorem pipeline_event_stream_total_order (userId query language : String)
    (safetyO : StageOutcome SafetyVerdict) (intentO : StageOutcome Intent)
    (retrievalO : StageOutcome RetrievedContext)
    (generationO : StageOutcome GeneratedAnswer) :
    ((runPipeline userId query language safetyO intentO retrievalO
        generationO).events.filter (fun e => e.type.isTerminal)).length ≤ 1
    ∧ ((runPipeline userId query language safetyO intentO retrievalO
        generationO).events.dropLast.all (fun e => !e.type.isTerminal)) = true
    ∧ attachStream (runPipeline userId query language safetyO intentO
        retrievalO generationO).events =
        (runPipeline userId query language safetyO intentO retrievalO
          generationO).events.map sseLine
    ∧ ∀ line ∈ attachStream (runPipeline userId query language safetyO
        intentO retrievalO generationO).events,
        ("data: ").data <+: line.data := by
  obtain ⟨h1, h2, h3⟩ :=
    runPipeline_terminal_spec userId query language safetyO intentO
      retrievalO generationO
  exact ⟨h1, h2, by rw [attachStream, h3], attachStream_lines_prefix _⟩

/-- Witness for C3 at a concrete input. -/
theorem pipeline_event_stream_total_order_witness :
    ("data: ").data <+:
      (sseLine ⟨.error, .errInfo ("safety_check") ("failure"), 1⟩).data :=
  (pipeline_event_stream_total_order ("u") ("q") ("en") (.failure ("boom"))
    (.ok .general_question) (.ok ⟨[]⟩) (.ok ⟨("a"), 1, []⟩)).2.2.2
    _ (by decide)

/-- C4: for a non-blocked query classified as `general_question` or
`offline_fallback` whose generation succeeds, the retrieval stage is
skipped — no `retrieval_start` event is emitted and the only gateway call
is the generation call, whose input context is the substituted empty
`RetrievedContext` — and the run still terminates in `Complete` with a
`response_complete` terminal event. -/
theorem pipeline_skips_retrieval_for_general (userId query language : String)
    (v : SafetyVerdict) (intent : Intent)
    (retrievalO : StageOutcome RetrievedContext) (ans : GeneratedAnswer)
    (hv : v.allowed = true)
    (hi : intent = Intent.general_question ∨ intent = Intent.offline_fallback) :
    ((runPipeline userId query language (.ok v) (.ok intent) retrievalO
        (.ok ans)).events.all fun e => !e.type.isRetrievalStart) = true
    ∧ (runPipeline userId query language (.ok v) (.ok intent) retrievalO
        (.ok ans)).calls = [GatewayCall.generate query intent ⟨[]⟩]
    ∧ (runPipeline userId query language (.ok v) (.ok intent) retrievalO
        (.ok ans)).events.getLast?.map PipelineEvent.type =
        some .response_complete
    ∧ (runPipeline userId query language (.ok v) (.ok intent) retrievalO
        (.ok ans)).state = .Complete := by
  have hg : needsGrounding intent = false := by
    rcases hi with h | h <;> simp [h, needsGrounding]
  refine ⟨?_, ?_, ?_, ?_⟩ <;>
    simp [runPipeline, generationPhase, hv, hg, EventType.isRetrievalStart]

/-- Witness for C4 at a concrete input. -/
theorem pipeline_skips_retrieval_for_general_witness :
    ((runPipeline ("u1") ("what is kyc") ("en") (.ok ⟨true, []⟩)
        (.ok .general_question) (.ok ⟨[]⟩)
        (.ok ⟨("answer"), 1, []⟩)).events.all
      fun e => !e.type.isRetrievalStart) = true :=
  (pipeline_skips_retrieval_for_general ("u1") ("what is kyc") ("en")
    ⟨true, []⟩ .general_question (.ok ⟨[]⟩) ⟨("answer"), 1, []⟩
    rfl (Or.inl rfl)).1

/-- C7: every stage failure or timeout is recovered inside the pipeline:
the run moves to `Failed`, its last emitted event is the `error` event,
and the caller receives the generic language-appropriate fallback response
(a value independent of the internal error, which is never re-thrown —
the run function is total); correspondingly the client's `processText`
always resolves to a response object, with `success = false` and the error
string when the underlying request chain threw. -/
theorem pipeline_failure_recovery :
    (∀ userId query language : String,
      ∀ safetyO : StageOutcome SafetyVerdict, ∀ intentO : StageOutcome Intent,
      ∀ retrievalO : StageOutcome RetrievedContext,
      ∀ generationO : StageOutcome GeneratedAnswer,
      safetyO.isOk = false →
      FailedRecovery language
        (runPipeline userId query language safetyO intentO retrievalO generationO))
    ∧ (∀ userId query language : String, ∀ v : SafetyVerdict,
        ∀ intentO : StageOutcome Intent,
        ∀ retrievalO : StageOutcome RetrievedContext,
        ∀ generationO : StageOutcome GeneratedAnswer,
        v.allowed = true → intentO.isOk = false →
        FailedRecovery language
          (runPipeline userId query language (.ok v) intentO retrievalO generationO))
    ∧ (∀ userId query language : String, ∀ v : SafetyVerdict, ∀ intent : Intent,
        ∀ retrievalO : StageOutcome RetrievedContext,
        ∀ generationO : StageOutcome GeneratedAnswer,
        v.allowed = true → needsGrounding intent = true → retrievalO.isOk = false →
        FailedRecovery language
          (runPipeline userId query language (.ok v) (.ok intent) retrievalO
            generationO))
    ∧ (∀ userId query language : String, ∀ v : SafetyVerdict, ∀ intent : Intent,
        ∀ retrievalO : StageOutcome RetrievedContext,
        ∀ generationO : StageOutcome GeneratedAnswer,
        v.allowed = true →
        (needsGrounding intent = true → retrievalO.isOk = true) →
        generationO.isOk = false →
        FailedRecovery language
          (runPipeline userId query language (.ok v) (.ok intent) retrievalO
            generationO))
    ∧ (∀ msg : String,
        processText (Except.error msg) = ⟨false, (""), 0, some msg⟩)
    ∧ (∀ r : VoiceProcessResponse, processText (Except.ok r) = r) := by
  refine ⟨?_, ?_, ?_, ?_, fun msg => rfl, fun r => rfl⟩
  · intro u q l sO iO rO gO hs
    cases sO with
    | ok v => simp [StageOutcome.isOk] at hs
    | failure m => simp [runPipeline, FailedRecovery]
    | timeout => simp [runPipeline, FailedRecovery]
  · intro u q l v iO rO gO hv hi
    cases iO with
    | ok intent => simp [StageOutcome.isOk] at hi
    | failure m => simp [runPipeline, FailedRecovery, hv]
    | timeout => simp [runPipeline, FailedRecovery, hv]
  · intro u q l v intent rO gO hv hg hr
    cases rO with
    | ok ctx => simp [StageOutcome.isOk] at hr
    | failure m => simp [runPipeline, FailedRecovery, hv, hg]
    | timeout => simp [runPipeline, FailedRecovery, hv, hg]
  · intro u q l v intent rO gO hv hrg hgen
    cases hgr : needsGrounding intent with
    | true =>
      have hro : rO.isOk = true := hrg hgr
      cases rO with
      | ok ctx =>
        cases gO with
        | ok ans => simp [StageOutcome.isOk] at hgen
        | failure m =>
          simp [runPipeline, generationPhase, FailedRecovery, hv, hgr]
        | timeout =>
          simp [runPipeline, generationPhase, FailedRecovery, hv, hgr]
      | failure m => simp [StageOutcome.isOk] at hro
      | timeout => simp [StageOutcome.isOk] at hro
    | false =>
      cases gO with
      | ok ans => simp [StageOutcome.isOk] at hgen
      | failure m =>
        simp [runPipeline, generationPhase, FailedRecovery, hv, hgr]
      | timeout =>
        simp [runPipeline, generationPhase, FailedRecovery, hv, hgr]

/-- Witness for C7 at a concrete input. -/
theorem pipeline_failure_recovery_witness :
    FailedRecovery ("en")
      (runPipeline ("u1") ("q") ("en")
        (.timeout : StageOutcome SafetyVerdict) (.ok .general_question)
        (.ok ⟨[]⟩) (.ok ⟨("a"), 1, []⟩)) :=
  pipeline_failure_recovery.1 ("u1") ("q") ("en") .timeout
    (.ok .general_question) (.ok ⟨[]⟩) (.ok ⟨("a"), 1, []⟩) rfl

/-- The last-`n` slice never has more than `n` elements. -/
theorem takeLast_length_le {α : Type} (n : Nat) (l : List α) :
    (takeLast n l).length ≤ n := by
  simp only [takeLast, List.length_drop]
  omega

/-- Slicing a list that is already a last-`n` slice before appending is the
same as appending first and slicing once. -/
theorem takeLast_takeLast_append {α : Type} (n : Nat) (xs ys : List α) :
    takeLast n (takeLast n xs ++ ys) = takeLast n (xs ++ ys) := by
  rcases le_or_lt xs.length n with h | h
  · have hk : xs.length - n = 0 := by omega
    simp [takeLast, hk]
  · have hxs : (takeLast n xs).length = n := by
      simp only [takeLast, List.length_drop]
      omega
    rcases le_or_lt ys.length n with hy | hy
    · have hamt : (takeLast n xs ++ ys).length - n = ys.length := by
        simp only [List.length_append, hxs]
        omega
      have hamt2 : (xs ++ ys).length - n = (xs.length - n) + ys.length := by
        simp only [List.length_append]
        omega
      rw [takeLast, hamt, List.drop_append_of_le_length (by omega),
        takeLast, List.drop_drop, takeLast, hamt2]
      rw [List.drop_append_of_le_length (by omega)]
    · have hamt : (takeLast n xs ++ ys).length - n =
          (takeLast n xs).length + (ys.length - n) := by
        simp only [List.length_append, hxs]
        omega
      have hamt2 : (xs ++ ys).length - n = xs.length + (ys.length - n) := by
        simp only [List.length_append]
        omega
      rw [takeLast, hamt, List.drop_append, takeLast, hamt2, List.drop_append]

/-- Folding the message handler from any small enough buffer records
exactly the application events, sliced to the last 100. -/
theorem foldl_handleMessage_eq (msgs : List (Option TelemetryEvent)) :
    ∀ acc : List TelemetryEvent, acc.length ≤ 100 →
      msgs.foldl handleMessage acc = takeLast 100 (acc ++ appEvents msgs) := by
  induction msgs with
  | nil =>
    intro acc h
    have hk : acc.length - 100 = 0 := by omega
    simp [appEvents, takeLast, hk]
  | cons m rest ih =>
    intro acc h
    cases m with
    | none =>
      simpa [handleMessage, appEvents] using ih acc h
    | some d =>
      by_cases hd : (d.type == ("heartbeat")) = true
      · have : appEvents (some d :: rest) = appEvents rest := by
          simp [appEvents, List.filterMap_cons, hd]
        simpa [handleMessage, hd, this] using ih acc h
      · have happ : appEvents (some d :: rest) = d :: appEvents rest := by
          simp only [appEvents, List.filterMap_cons, id, List.filter_cons]
          simp [hd]
        have hstep : handleMessage acc (some d) = takeLast 100 (acc ++ [d]) := by
          simp [handleMessage, hd]
        calc (some d :: rest).foldl handleMessage acc
            = rest.foldl handleMessage (takeLast 100 (acc ++ [d])) := by
              simp [List.foldl_cons, hstep]
          _ = takeLast 100 (takeLast 100 (acc ++ [d]) ++ appEvents rest) :=
              ih _ (takeLast_length_le 100 (acc ++ [d]))
          _ = takeLast 100 ((acc ++ [d]) ++ appEvents rest) :=
              takeLast_takeLast_append 100 (acc ++ [d]) (appEvents rest)
          _ = takeLast 100 (acc ++ appEvents (some d :: rest)) := by
              rw [happ, List.append_assoc]
              rfl

/-- C5 counterexample: with 101 application (non-heartbeat) messages the
recorded event list is the last 100 of them, not the whole sequence, so
the recorded sequence is not exactly the arrival sequence. -/
theorem telemetry_heartbeat_exact_counterexample :
    ¬ (processMessages (List.replicate 101 (some ⟨("app"), (""), ("")⟩)) =
        appEvents (List.replicate 101 (some ⟨("app"), (""), ("")⟩))) := by
  intro h
  have hlen := congrArg List.length h
  rw [show (processMessages
        (List.replicate 101 (some ⟨("app"), (""), ("")⟩))).length = 100
      from by decide,
    show (appEvents
        (List.replicate 101 (some ⟨("app"), (""), ("")⟩))).length = 101
      from by decide] at hlen
  exact absurd hlen (by decide)

/-- C5 (amended): heartbeat messages are never recorded: the recorded
event list is exactly the sequence of non-heartbeat messages in arrival
order, truncated to the most recent 100 by the bounded buffer; whenever
at most 100 application events have arrived, it is exactly the full
non-heartbeat sequence. -/
theorem telemetry_heartbeat_excluded :
    (∀ msgs : List (Option TelemetryEvent),
      processMessages msgs = takeLast 100 (appEvents msgs))
    ∧ (∀ msgs : List (Option TelemetryEvent), (appEvents msgs).length ≤ 100 →
        processMessages msgs = appEvents msgs) := by
  have hmain : ∀ msgs : List (Option TelemetryEvent),
      processMessages msgs = takeLast 100 (appEvents msgs) := by
    intro msgs
    simpa using foldl_handleMessage_eq msgs [] (by simp)
  refine ⟨hmain, fun msgs h => ?_⟩
  rw [hmain msgs, takeLast, show (appEvents msgs).length - 100 = 0 from by omega,
    List.drop_zero]

/-- Witness for C5 (amended) at a concrete input. -/
theorem telemetry_heartbeat_excluded_witness :
    processMessages
        [some ⟨("heartbeat"), (""), ("")⟩, some ⟨("cache_hit"), (""), ("")⟩, none] =
      appEvents
        [some ⟨("heartbeat"), (""), ("")⟩, some ⟨("cache_hit"), (""), ("")⟩, none] :=
  telemetry_heartbeat_excluded.2
    [some ⟨("heartbeat"), (""), ("")⟩, some ⟨("cache_hit"), (""), ("")⟩, none]
    (by decide)

/-- C6: the telemetry event buffer is bounded at 100 events: after any
arrival sequence the retained list has length at most 100; for a sequence
of application (non-heartbeat) events the retained list is exactly the
trailing slice — a suffix — of the arrival sequence; and an event arriving
at a full buffer evicts exactly the oldest retained event (FIFO). -/
theorem telemetry_buffer_bounded_fifo :
    (∀ msgs : List (Option TelemetryEvent), (processMessages msgs).length ≤ 100)
    ∧ (∀ evs : List TelemetryEvent,
        (evs.all fun d => !(d.type == ("heartbeat"))) = true →
        processMessages (evs.map some) = evs.drop (evs.length - 100))
    ∧ (∀ (buf : List TelemetryEvent) (d : TelemetryEvent),
        buf.length = 100 → (d.type == ("heartbeat")) = false →
        handleMessage buf (some d) = buf.drop 1 ++ [d]) := by
  have hmain : ∀ msgs : List (Option TelemetryEvent),
      processMessages msgs = takeLast 100 (appEvents msgs) := by
    intro msgs
    simpa using foldl_handleMessage_eq msgs [] (by simp)
  refine ⟨fun msgs => ?_, fun evs h => ?_, fun buf d hlen hd => ?_⟩
  · rw [hmain msgs]
    exact takeLast_length_le 100 (appEvents msgs)
  · have happ : appEvents (evs.map some) = evs := by
      have h1 : List.filterMap id (evs.map some) = evs := by
        simp
      simp only [appEvents]
      rw [h1]
      exact List.filter_eq_self.mpr (by simpa [List.all_eq_true] using h)
    rw [hmain, happ, takeLast]
  · have hlen2 : (buf ++ [d]).length - 100 = 1 := by
      simp only [List.length_append, List.length_cons, List.length_nil, hlen]
    rw [handleMessage, if_neg (by simp [hd]), takeLast, hlen2,
      List.drop_append_of_le_length (by omega)]

/-- Witness for C6 at a concrete input. -/
theorem telemetry_buffer_bounded_fifo_witness :
    processMessages
        ((([⟨("scam_detected"), (""), ("")⟩] : List TelemetryEvent)).map some) =
      ([⟨("scam_detected"), (""), ("")⟩] : List TelemetryEvent).drop
        (([⟨("scam_detected"), (""), ("")⟩] : List TelemetryEvent).length - 100) :=
  telemetry_buffer_bounded_fifo.2.1 [⟨("scam_detected"), (""), ("")⟩] (by decide)

/-- C8: evaluation of `fetchWithRetry` at the claim's own distinguishing
input — a fetch that returns HTTP 404 on every attempt.  The `Client
error` throw for a 4xx status is raised inside the `try` block and caught
by the loop's own `catch`, so the code issues all 3 requests and only
throws after the last one, contradicting the no-retry-on-4xx behavior the
code's own comment (`Do not retry on client errors (4xx)`) documents and
the claim states. -/
theorem fetchWithRetry_client_error_retried :
    fetchWithRetry (fun _ => FetchOutcome.http 404) 3 =
      (Except.error ("Client error: 404"), 3) := by
  rfl

/-- C9: the streaming client never rejects: a network failure or a non-ok
HTTP status makes it deliver exactly one event, of type `error`, to the
callback; and a received `data: ` line whose payload does not parse is
skipped while every event from the surrounding lines is still
delivered. -/
theorem streamText_error_handling :
    (∀ parse : String → Option StreamEvent, ∀ msg nowIso : String,
      streamTextProcessing parse (.network msg) nowIso =
        [streamErrorEvent msg nowIso]
      ∧ (streamErrorEvent msg nowIso).type = ("error"))
    ∧ (∀ parse : String → Option StreamEvent, ∀ status : Nat,
        ∀ lines : List String, ∀ nowIso : String, statusOk status = false →
        streamTextProcessing parse (.http status lines) nowIso =
          [streamErrorEvent (("Streaming failed: ") ++ toString status) nowIso])
    ∧ (∀ parse : String → Option StreamEvent, ∀ status : Nat,
        ∀ pre post : List String, ∀ bad nowIso : String,
        statusOk status = true → processStreamLine parse bad = none →
        streamTextProcessing parse (.http status (pre ++ bad :: post)) nowIso =
          streamTextProcessing parse (.http status pre) nowIso ++
            streamTextProcessing parse (.http status post) nowIso) := by
  refine ⟨fun parse msg nowIso => ⟨rfl, rfl⟩,
    fun parse status lines nowIso h => ?_,
    fun parse status pre post bad nowIso h hbad => ?_⟩
  · simp [streamTextProcessing, h]
  · simp [streamTextProcessing, h, List.filterMap_append, List.filterMap_cons, hbad]

/-- Witness for C9 at a concrete input. -/
theorem streamText_error_handling_witness :
    streamTextProcessing (fun _ => none)
        (.http 200 [("retry"), ("data: junk"), ("event: x")]) ("t0") =
      streamTextProcessing (fun _ => none) (.http 200 [("retry")]) ("t0") ++
        streamTextProcessing (fun _ => none)
          (.http 200 [("event: x")]) ("t0") :=
  streamText_error_handling.2.2 (fun _ => none) 200 [("retry")] [("event: x")]
    ("data: junk") ("t0") (by decide) (by decide)

/-- One lifecycle event keeps the attempt counter within the maximum. -/
theorem wsStep_attempts_le (maxAttempts interval : Nat) (s : ConnState)
    (ev : WsEvent) (h : s.attempts ≤ maxAttempts) :
    (wsStep maxAttempts interval s ev).attempts ≤ maxAttempts := by
  cases ev with
  | opened => simp [wsStep]
  | closed =>
    by_cases hc : s.attempts < maxAttempts
    · simp [wsStep, hc]
      omega
    · simp [wsStep, hc]
      omega

/-- Folding any lifecycle event sequence keeps the counter within the
maximum. -/
theorem foldl_wsStep_attempts_le (maxAttempts interval : Nat)
    (evs : List WsEvent) :
    ∀ s : ConnState, s.attempts ≤ maxAttempts →
      (evs.foldl (wsStep maxAttempts interval) s).attempts ≤ maxAttempts := by
  induction evs with
  | nil => intro s h; simpa using h
  | cons ev rest ih =>
    intro s h
    simpa using ih _ (wsStep_attempts_le maxAttempts interval s ev h)

/-- C10: the telemetry hook's reconnection is bounded and
self-terminating: over any WebSocket lifecycle history the reconnect
attempt counter never exceeds `maxReconnectAttempts`; a close at the
maximum sets the error state to `Max reconnection attempts reached` and
schedules no further attempt; a close below the maximum increments the
counter and schedules one reconnect `reconnectInterval` milliseconds
later; and a successful open resets the counter to 0. -/
theorem useTelemetry_reconnect_bounded :
    (∀ maxAttempts interval : Nat, ∀ evs : List WsEvent,
      (runConn maxAttempts interval evs).attempts ≤ maxAttempts)
    ∧ (∀ maxAttempts interval : Nat, ∀ s : ConnState,
        s.attempts = maxAttempts →
        wsStep maxAttempts interval s .closed =
          ⟨maxAttempts, false, some ("Max reconnection attempts reached"), none⟩)
    ∧ (∀ maxAttempts interval : Nat, ∀ s : ConnState,
        s.attempts < maxAttempts →
        wsStep maxAttempts interval s .closed =
          ⟨s.attempts + 1, false, s.errorMsg, some interval⟩)
    ∧ (∀ maxAttempts interval : Nat, ∀ s : ConnState,
        wsStep maxAttempts interval s .opened = ⟨0, true, none, none⟩) := by
  refine ⟨fun maxAttempts interval evs => ?_,
    fun maxAttempts interval s h => ?_,
    fun maxAttempts interval s h => ?_,
    fun maxAttempts interval s => rfl⟩
  · exact foldl_wsStep_attempts_le maxAttempts interval evs initialConn
      (by simp [initialConn])
  · simp [wsStep, h]
  · simp [wsStep, h]

/-- Witness for C10 at a concrete input. -/
theorem useTelemetry_reconnect_bounded_witness :
    wsStep 5 3000 ⟨5, false, none, none⟩ .closed =
      ⟨5, false, some ("Max reconnection attempts reached"), none⟩ :=
  useTelemetry_reconnect_bounded.2.1 5 3000 ⟨5, false, none, none⟩ rfl

end SatyaSetu
